import Mathlib

/-!
Shallow embedding of the runtara-tui application core (src/app.rs, src/main.rs).

The remote SDK (`runtara_management_sdk`) is an external collaborator; its
request/response calls are modelled as oracle records whose fields give the
outcome of each call, as a function of the request arguments where the code
builds those arguments from state.  `Instant` is modelled as `Nat`,
`Duration` as `Nat`, and the `u16` scroll offset as a `Nat` saturating at
65535.  The standard library's socket-address parse is external; its outcome
is passed to `App.new` as an `Option SocketAddr`.
-/

/-- Status filter for instances list (src/app.rs `StatusFilter`). -/
inductive StatusFilter
  | All
  | Running
  | Completed
  | Failed
  | Pending
  | Suspended
deriving DecidableEq, Repr

/-- Instance status as reported by the SDK (external type, constructors from the source). -/
inductive InstanceStatus
  | Pending
  | Running
  | Suspended
  | Completed
  | Failed
  | Cancelled
  | Unknown
deriving DecidableEq, Repr, Inhabited

/-- `StatusFilter::to_instance_status` (src/app.rs). -/
def StatusFilter.to_instance_status : StatusFilter → Option InstanceStatus
  | .All => none
  | .Running => some .Running
  | .Completed => some .Completed
  | .Failed => some .Failed
  | .Pending => some .Pending
  | .Suspended => some .Suspended

/-- `StatusFilter::next` (src/app.rs). -/
def StatusFilter.next : StatusFilter → StatusFilter
  | .All => .Running
  | .Running => .Completed
  | .Completed => .Failed
  | .Failed => .Pending
  | .Pending => .Suspended
  | .Suspended => .All

/-- Active tab in the UI (src/app.rs `Tab`). -/
inductive Tab
  | Instances
  | Images
  | Metrics
  | Health
deriving DecidableEq, Repr

/-- Current view mode (src/app.rs `ViewMode`). -/
inductive ViewMode
  | List
  | InstanceDetail
  | CheckpointsList
  | CheckpointDetail
deriving DecidableEq, Repr

/-- Metrics granularity (external SDK type `MetricsGranularity`). -/
inductive MetricsGranularity
  | Hourly
  | Daily
deriving DecidableEq, Repr

/-- A socket address; the embedding only needs it as an inert value. -/
structure SocketAddr where
  a : Nat
  b : Nat
  c : Nat
  d : Nat
  port : Nat
deriving DecidableEq, Repr

/-- Health snapshot (external SDK type `HealthStatus`; fields as read by src/ui.rs). -/
structure HealthStatus where
  healthy : Bool
  version : String
  uptime_ms : Nat
  active_instances : Nat
deriving DecidableEq, Repr

/-- Instance summary row (external SDK type `InstanceSummary`; fields as read by the core). -/
structure InstanceSummary where
  instance_id : String
  tenant_id : String
  image_id : String
  status : InstanceStatus
deriving DecidableEq, Repr, Inhabited

/-- Image summary row (external SDK type `ImageSummary`; fields as read by src/ui.rs). -/
structure ImageSummary where
  image_id : String
  name : String
  tenant_id : String
deriving DecidableEq, Repr

/-- Full instance record (external SDK type `InstanceInfo`; fields as read by the core). -/
structure InstanceInfo where
  instance_id : String
  tenant_id : String
  image_id : String
  status : InstanceStatus
deriving DecidableEq, Repr

/-- Checkpoint summary row (external SDK type `CheckpointSummary`). -/
structure CheckpointSummary where
  checkpoint_id : String
  instance_id : String
  created_at : Nat
  data_size_bytes : Nat
deriving DecidableEq, Repr, Inhabited

/-- Full checkpoint record (external SDK type `Checkpoint`). -/
structure Checkpoint where
  checkpoint_id : String
  instance_id : String
  created_at : Nat
  data : String
deriving DecidableEq, Repr

/-- One aggregated metrics bucket (external SDK type; fields as read by src/ui.rs). -/
structure MetricsBucket where
  bucket_time : Nat
  invocation_count : Nat
  success_count : Nat
  failure_count : Nat
  success_rate_percent : Option Nat
deriving DecidableEq, Repr

/-- Tenant metrics result (external SDK type `TenantMetricsResult`). -/
structure TenantMetricsResult where
  start_time : Nat
  end_time : Nat
  buckets : List MetricsBucket
deriving DecidableEq, Repr

/-- Result of `list_instances` (external SDK type). -/
structure ListInstancesResult where
  instances : List InstanceSummary
  total_count : Nat
deriving DecidableEq, Repr

/-- Result of `list_images` (external SDK type). -/
structure ListImagesResult where
  images : List ImageSummary
  total_count : Nat
deriving DecidableEq, Repr

/-- Result of `list_checkpoints` (external SDK type). -/
structure ListCheckpointsResult where
  checkpoints : List CheckpointSummary
  total_count : Nat
deriving DecidableEq, Repr

/-- Application state (src/app.rs `App`). -/
structure App where
  server_addr : SocketAddr
  skip_cert_verification : Bool
  tenant_id : Option String
  tab : Tab
  view_mode : ViewMode
  status_filter : StatusFilter
  health : Option HealthStatus
  instances : List InstanceSummary
  instances_total : Nat
  instances_selected : Nat
  images : List ImageSummary
  images_total : Nat
  images_selected : Nat
  instance_detail : Option InstanceInfo
  checkpoints : List CheckpointSummary
  checkpoints_total : Nat
  checkpoints_selected : Nat
  checkpoint_detail : Option Checkpoint
  metrics : Option TenantMetricsResult
  metrics_granularity : MetricsGranularity
  metrics_selected : Nat
  detail_scroll : Nat
  last_refresh : Option Nat
  refresh_interval : Nat
  error : Option String
  connected : Bool
deriving DecidableEq, Repr

/-- The fallback address `127.0.0.1:8002` hard-coded in `App::new`. -/
def defaultAddr : SocketAddr := ⟨127, 0, 0, 1, 8002⟩

/-- `App::new` (src/app.rs).  `parse_result` is the outcome of the external
`server.parse()` call: `none` models a parse failure, in which case
`unwrap_or_else` substitutes the default address. -/
def App.new (parse_result : Option SocketAddr) (skip_cert_verification : Bool)
    (tenant_id : Option String) (refresh_interval : Nat) : App where
  server_addr := parse_result.getD defaultAddr
  skip_cert_verification := skip_cert_verification
  tenant_id := tenant_id
  tab := .Instances
  view_mode := .List
  status_filter := .All
  health := none
  instances := []
  instances_total := 0
  instances_selected := 0
  images := []
  images_total := 0
  images_selected := 0
  instance_detail := none
  checkpoints := []
  checkpoints_total := 0
  checkpoints_selected := 0
  checkpoint_detail := none
  metrics := none
  metrics_granularity := .Hourly
  metrics_selected := 0
  detail_scroll := 0
  last_refresh := none
  refresh_interval := refresh_interval
  error := none
  connected := false

/-- `App::should_refresh` (src/app.rs); `now - last` is `Instant::elapsed`. -/
def App.should_refresh (app : App) (now : Nat) : Bool :=
  match app.last_refresh with
  | some last => now - last ≥ app.refresh_interval
  | none => true

/-- `App::next_tab` (src/app.rs). -/
def App.next_tab (app : App) : App :=
  { app with tab := match app.tab with
      | .Instances => .Images
      | .Images => .Metrics
      | .Metrics => .Health
      | .Health => .Instances }

/-- `App::previous_tab` (src/app.rs). -/
def App.previous_tab (app : App) : App :=
  { app with tab := match app.tab with
      | .Instances => .Health
      | .Images => .Instances
      | .Metrics => .Images
      | .Health => .Metrics }

/-- `App::set_tab` (src/app.rs). -/
def App.set_tab (app : App) (index : Nat) : App :=
  { app with tab := match index with
      | 0 => .Instances
      | 1 => .Images
      | 2 => .Metrics
      | 3 => .Health
      | _ => .Instances }

/-- `App::next_item` (src/app.rs): cyclic increment of the selection of the
collection backing the active tab. -/
def App.next_item (app : App) : App :=
  match app.tab with
  | .Instances =>
      if app.instances.isEmpty then app
      else { app with instances_selected :=
        (app.instances_selected + 1) % app.instances.length }
  | .Images =>
      if app.images.isEmpty then app
      else { app with images_selected :=
        (app.images_selected + 1) % app.images.length }
  | .Metrics =>
      match app.metrics with
      | some metrics =>
          if metrics.buckets.isEmpty then app
          else { app with metrics_selected :=
            (app.metrics_selected + 1) % metrics.buckets.length }
      | none => app
  | .Health => app

/-- `App::previous_item` (src/app.rs): `checked_sub(1).unwrap_or(len - 1)`. -/
def App.previous_item (app : App) : App :=
  match app.tab with
  | .Instances =>
      if app.instances.isEmpty then app
      else { app with instances_selected :=
        if app.instances_selected = 0 then app.instances.length - 1
        else app.instances_selected - 1 }
  | .Images =>
      if app.images.isEmpty then app
      else { app with images_selected :=
        if app.images_selected = 0 then app.images.length - 1
        else app.images_selected - 1 }
  | .Metrics =>
      match app.metrics with
      | some metrics =>
          if metrics.buckets.isEmpty then app
          else { app with metrics_selected :=
            if app.metrics_selected = 0 then metrics.buckets.length - 1
            else app.metrics_selected - 1 }
      | none => app
  | .Health => app

/-- `App::cycle_status_filter` (src/app.rs). -/
def App.cycle_status_filter (app : App) : App :=
  { app with status_filter := app.status_filter.next }

/-- `App::toggle_metrics_granularity` (src/app.rs). -/
def App.toggle_metrics_granularity (app : App) : App :=
  { app with
    metrics_granularity := (match app.metrics_granularity with
      | .Hourly => .Daily
      | .Daily => .Hourly),
    metrics_selected := 0 }

/-- `App::go_back` (src/app.rs). -/
def App.go_back (app : App) : App :=
  match app.view_mode with
  | .List => app
  | .InstanceDetail =>
      { app with view_mode := .List, instance_detail := none, detail_scroll := 0 }
  | .CheckpointsList =>
      { app with
        view_mode := .InstanceDetail,
        checkpoints := [],
        checkpoints_total := 0,
        checkpoints_selected := 0 }
  | .CheckpointDetail =>
      { app with
        view_mode := .CheckpointsList,
        checkpoint_detail := none,
        detail_scroll := 0 }

/-- `App::scroll_up` (src/app.rs): `u16` saturating subtraction. -/
def App.scroll_up (app : App) : App :=
  { app with detail_scroll := app.detail_scroll - 1 }

/-- `App::scroll_down` (src/app.rs): `u16` saturating addition. -/
def App.scroll_down (app : App) : App :=
  { app with detail_scroll := min (app.detail_scroll + 1) 65535 }

/-- `App::next_checkpoint` (src/app.rs). -/
def App.next_checkpoint (app : App) : App :=
  if app.checkpoints.isEmpty then app
  else { app with checkpoints_selected :=
    (app.checkpoints_selected + 1) % app.checkpoints.length }

/-- `App::previous_checkpoint` (src/app.rs). -/
def App.previous_checkpoint (app : App) : App :=
  if app.checkpoints.isEmpty then app
  else { app with checkpoints_selected :=
    if app.checkpoints_selected = 0 then app.checkpoints.length - 1
    else app.checkpoints_selected - 1 }

/-- Outcomes of the remote calls made by one `App::refresh` cycle
(`create_sdk`, `connect`, `health_check`, `list_instances`, `list_images`,
`get_tenant_metrics`).  Calls that the Rust code parameterises with state
are functions of those arguments (tenant filter, status filter, limit,
granularity).  `now` is the value `Instant::now()` returns at the end of
the cycle. -/
structure RefreshOracle where
  create_sdk : Except String Unit
  connect : Except String Unit
  health_check : Except String HealthStatus
  list_instances : Option String → Option InstanceStatus → Nat → Except String ListInstancesResult
  list_images : Option String → Nat → Except String ListImagesResult
  get_tenant_metrics : String → MetricsGranularity → Except String TenantMetricsResult
  now : Nat

/-- The health-check block of `App::refresh` (src/app.rs lines 236-241). -/
def refresh_health (o : RefreshOracle) (app : App) : App :=
  match o.health_check with
  | .ok health => { app with health := some health }
  | .error e => { app with error := some ("Health check failed: " ++ e) }

/-- The instance-fetch block of `App::refresh` (src/app.rs lines 243-262),
including the selection clamp performed after the replacement. -/
def refresh_instances (o : RefreshOracle) (app : App) : App :=
  match o.list_instances app.tenant_id app.status_filter.to_instance_status 100 with
  | .ok result =>
      let app := { app with
        instances := result.instances,
        instances_total := result.total_count }
      if app.instances_selected ≥ app.instances.length ∧ ¬ app.instances.isEmpty then
        { app with instances_selected := app.instances.length - 1 }
      else app
  | .error e => { app with error := some ("Failed to list instances: " ++ e) }

/-- The image-fetch block of `App::refresh` (src/app.rs lines 264-282). -/
def refresh_images (o : RefreshOracle) (app : App) : App :=
  match o.list_images app.tenant_id 100 with
  | .ok result =>
      let app := { app with
        images := result.images,
        images_total := result.total_count }
      if app.images_selected ≥ app.images.length ∧ ¬ app.images.isEmpty then
        { app with images_selected := app.images.length - 1 }
      else app
  | .error e => { app with error := some ("Failed to list images: " ++ e) }

/-- The metrics-fetch block of `App::refresh` (src/app.rs lines 284-301);
only runs when a tenant filter is configured. -/
def refresh_metrics (o : RefreshOracle) (app : App) : App :=
  match app.tenant_id with
  | some tenant_id =>
      match o.get_tenant_metrics tenant_id app.metrics_granularity with
      | .ok result =>
          let bucket_count := result.buckets.length
          let app := { app with metrics := some result }
          if app.metrics_selected ≥ bucket_count ∧ bucket_count > 0 then
            { app with metrics_selected := bucket_count - 1 }
          else app
      | .error e => { app with error := some ("Failed to get metrics: " ++ e) }
  | none => app

/-- `App::refresh` (src/app.rs lines 215-304): clear the error slot, create
the SDK and connect (either failure returns early with `connected = false`),
then run the four fetch blocks in order and stamp `last_refresh`. -/
def App.refresh (app : App) (o : RefreshOracle) : App :=
  let app := { app with error := none }
  match o.create_sdk with
  | .error e =>
      { app with error := some ("Failed to create SDK: " ++ e), connected := false }
  | .ok _ =>
      match o.connect with
      | .error e =>
          { app with error := some ("Connection failed: " ++ e), connected := false }
      | .ok _ =>
          let app := { app with connected := true }
          let app := refresh_health o app
          let app := refresh_instances o app
          let app := refresh_images o app
          let app := refresh_metrics o app
          { app with last_refresh := some o.now }

/-- Outcomes of the remote calls made by `App::open_instance_detail`. -/
structure DetailOracle where
  create_sdk : Except String Unit
  connect : Except String Unit
  get_instance_status : String → Except String InstanceInfo

/-- `App::open_instance_detail` (src/app.rs lines 417-447): guard on an
empty instance list, read the selected row's id, connect-or-abort, and on
success push the detail frame and reset the scroll offset. -/
def App.open_instance_detail (app : App) (o : DetailOracle) : App :=
  if app.instances.isEmpty then app
  else
    let instance_id := (app.instances.getD app.instances_selected default).instance_id
    match o.create_sdk with
    | .error e => { app with error := some ("Failed to create SDK: " ++ e) }
    | .ok _ =>
        match o.connect with
        | .error e => { app with error := some ("Connection failed: " ++ e) }
        | .ok _ =>
            match o.get_instance_status instance_id with
            | .ok info =>
                { app with
                  instance_detail := some info,
                  view_mode := .InstanceDetail,
                  detail_scroll := 0 }
            | .error e =>
                { app with error := some ("Failed to get instance details: " ++ e) }

/-- Outcomes of the remote calls made by `App::open_checkpoints_list`. -/
structure CheckpointsOracle where
  create_sdk : Except String Unit
  connect : Except String Unit
  list_checkpoints : String → Nat → Except String ListCheckpointsResult

/-- `App::open_checkpoints_list` (src/app.rs lines 450-482): guard on a
missing instance detail, connect-or-abort, and on success replace the
checkpoint collection, reset its selection to 0 and push the frame. -/
def App.open_checkpoints_list (app : App) (o : CheckpointsOracle) : App :=
  match app.instance_detail with
  | none => app
  | some info =>
      match o.create_sdk with
      | .error e => { app with error := some ("Failed to create SDK: " ++ e) }
      | .ok _ =>
          match o.connect with
          | .error e => { app with error := some ("Connection failed: " ++ e) }
          | .ok _ =>
              match o.list_checkpoints info.instance_id 100 with
              | .ok result =>
                  { app with
                    checkpoints := result.checkpoints,
                    checkpoints_total := result.total_count,
                    checkpoints_selected := 0,
                    view_mode := .CheckpointsList }
              | .error e =>
                  { app with error := some ("Failed to list checkpoints: " ++ e) }

/-- Outcomes of the remote calls made by `App::open_checkpoint_detail`;
`get_checkpoint` may succeed with `none` ("checkpoint not found"). -/
structure CheckpointDetailOracle where
  create_sdk : Except String Unit
  connect : Except String Unit
  get_checkpoint : String → String → Except String (Option Checkpoint)

/-- `App::open_checkpoint_detail` (src/app.rs lines 485-520): guard on an
empty checkpoint list, read the selected row's ids, connect-or-abort, and on
success push the detail frame and reset the scroll offset; a "not found"
result only sets the error slot. -/
def App.open_checkpoint_detail (app : App) (o : CheckpointDetailOracle) : App :=
  if app.checkpoints.isEmpty then app
  else
    let checkpoint := app.checkpoints.getD app.checkpoints_selected default
    let instance_id := checkpoint.instance_id
    let checkpoint_id := checkpoint.checkpoint_id
    match o.create_sdk with
    | .error e => { app with error := some ("Failed to create SDK: " ++ e) }
    | .ok _ =>
        match o.connect with
        | .error e => { app with error := some ("Connection failed: " ++ e) }
        | .ok _ =>
            match o.get_checkpoint instance_id checkpoint_id with
            | .ok (some checkpoint) =>
                { app with
                  checkpoint_detail := some checkpoint,
                  view_mode := .CheckpointDetail,
                  detail_scroll := 0 }
            | .ok none => { app with error := some "Checkpoint not found" }
            | .error e => { app with error := some ("Failed to get checkpoint: " ++ e) }

/-- Key codes distinguished by the dispatcher in `run_app` (src/main.rs). -/
inductive KeyCode
  | Char (c : Char)
  | Esc
  | Tab
  | BackTab
  | Down
  | Up
  | Enter
  | Other
deriving DecidableEq, Repr

/-- Oracles for every remote operation one dispatched key press may perform. -/
structure Effects where
  refresh : RefreshOracle
  detail : DetailOracle
  checkpoints : CheckpointsOracle
  checkpoint_detail : CheckpointDetailOracle

/-- Result of dispatching one key press: keep looping with the new state, or
return from `run_app` (terminate the event loop). -/
inductive StepResult
  | next (app : App)
  | quit

/-- The key dispatch of `run_app` (src/main.rs lines 99-146): a match on
(current view mode, key code).  `return Ok(())` is modelled as `.quit`. -/
def handle_key (app : App) (fx : Effects) (key : KeyCode) : StepResult :=
  match app.view_mode with
  | .List =>
      match key with
      | .Char 'q' => .quit
      | .Esc => .quit
      | .Char 'r' => .next (app.refresh fx.refresh)
      | .Tab => .next app.next_tab
      | .BackTab => .next app.previous_tab
      | .Down | .Char 'j' => .next app.next_item
      | .Up | .Char 'k' => .next app.previous_item
      | .Char '1' => .next (app.set_tab 0)
      | .Char '2' => .next (app.set_tab 1)
      | .Char '3' => .next (app.set_tab 2)
      | .Char '4' => .next (app.set_tab 3)
      | .Char 'f' => .next app.cycle_status_filter
      | .Char 'g' =>
          if app.tab = Tab.Metrics then
            .next (app.toggle_metrics_granularity.refresh fx.refresh)
          else .next app
      | .Enter =>
          if app.tab = Tab.Instances then
            .next (app.open_instance_detail fx.detail)
          else .next app
      | _ => .next app
  | .InstanceDetail =>
      match key with
      | .Esc => .next app.go_back
      | .Char 'c' => .next (app.open_checkpoints_list fx.checkpoints)
      | .Down | .Char 'j' => .next app.scroll_down
      | .Up | .Char 'k' => .next app.scroll_up
      | _ => .next app
  | .CheckpointsList =>
      match key with
      | .Esc => .next app.go_back
      | .Enter => .next (app.open_checkpoint_detail fx.checkpoint_detail)
      | .Down | .Char 'j' => .next app.next_checkpoint
      | .Up | .Char 'k' => .next app.previous_checkpoint
      | _ => .next app
  | .CheckpointDetail =>
      match key with
      | .Esc => .next app.go_back
      | .Down | .Char 'j' => .next app.scroll_down
      | .Up | .Char 'k' => .next app.scroll_up
      | _ => .next app

/-! Concrete sample values used by witnesses and counterexamples. -/

/-- A sample instance row. -/
def inst1 : InstanceSummary := ⟨"i-1", "t-1", "img-1", .Running⟩

/-- A sample checkpoint row. -/
def cpSum1 : CheckpointSummary := ⟨"c-1", "i-1", 10, 256⟩

/-- A sample full instance record. -/
def info1 : InstanceInfo := ⟨"i-1", "t-1", "img-1", .Running⟩

/-- A sample full checkpoint record. -/
def cpFull1 : Checkpoint := ⟨"c-1", "i-1", 10, "payload"⟩

/-- The freshly constructed state (no tenant filter, 5-second interval). -/
def baseApp : App := App.new none false none 5

/-- A refresh oracle whose connect step fails. -/
def connectFailOracle : RefreshOracle where
  create_sdk := .ok ()
  connect := .error "refused"
  health_check := .error "unreachable"
  list_instances := fun _ _ _ => .error "unreachable"
  list_images := fun _ _ => .error "unreachable"
  get_tenant_metrics := fun _ _ => .error "unreachable"
  now := 42

/-- A refresh oracle where every call succeeds and returns empty collections. -/
def emptyOkOracle : RefreshOracle where
  create_sdk := .ok ()
  connect := .ok ()
  health_check := .ok ⟨true, "1.0", 1000, 0⟩
  list_instances := fun _ _ _ => .ok ⟨[], 0⟩
  list_images := fun _ _ => .ok ⟨[], 0⟩
  get_tenant_metrics := fun _ _ => .ok ⟨0, 0, []⟩
  now := 42

/-- A bundle of oracles in which every remote call fails to connect. -/
def failFx : Effects where
  refresh := connectFailOracle
  detail := ⟨.ok (), .error "refused", fun _ => .error "unreachable"⟩
  checkpoints := ⟨.ok (), .error "refused", fun _ _ => .error "unreachable"⟩
  checkpoint_detail := ⟨.ok (), .error "refused", fun _ _ => .error "unreachable"⟩

/-- A state sitting in the instance-detail frame with a non-zero scroll. -/
def scrolledDetailApp : App :=
  { baseApp with
    view_mode := .InstanceDetail,
    instance_detail := some info1,
    instances := [inst1],
    checkpoints := [cpSum1],
    checkpoints_total := 1,
    detail_scroll := 5 }

/-- A sample metrics result with two buckets. -/
def mtr2 : TenantMetricsResult := ⟨0, 10, [⟨1, 1, 1, 0, none⟩, ⟨2, 1, 1, 0, none⟩]⟩

/-- A state with a tenant filter, three instances selected at 2, and stale
image/metric selections. -/
def c2App : App :=
  { baseApp with
    tenant_id := some "t-1",
    instances := [inst1, inst1, inst1],
    instances_total := 3,
    instances_selected := 2,
    images_selected := 1,
    metrics_selected := 5 }

/-- An oracle shrinking instances to one row, emptying images, and
returning two metric buckets. -/
def c2Oracle : RefreshOracle where
  create_sdk := .ok ()
  connect := .ok ()
  health_check := .ok ⟨true, "1.0", 0, 0⟩
  list_instances := fun _ _ _ => .ok ⟨[inst1], 1⟩
  list_images := fun _ _ => .ok ⟨[], 0⟩
  get_tenant_metrics := fun _ _ => .ok mtr2
  now := 99

/-- A sample image row. -/
def img1 : ImageSummary := ⟨"img-1", "alpine", "t-1"⟩

/-- A state with two instances and no tenant filter. -/
def c6App : App :=
  { baseApp with instances := [inst1, inst1], instances_total := 2, instances_selected := 1 }

/-- An oracle whose instance fetch fails while the image fetch succeeds. -/
def c6Oracle : RefreshOracle where
  create_sdk := .ok ()
  connect := .ok ()
  health_check := .ok ⟨true, "1.0", 0, 0⟩
  list_instances := fun _ _ _ => .error "db down"
  list_images := fun _ _ => .ok ⟨[img1], 1⟩
  get_tenant_metrics := fun _ _ => .error "unused"
  now := 7

/-- An oracle whose metrics fetch fails last. -/
def c6Oracle2 : RefreshOracle where
  create_sdk := .ok ()
  connect := .ok ()
  health_check := .error "hc down"
  list_instances := fun _ _ _ => .error "db down"
  list_images := fun _ _ => .ok ⟨[img1], 1⟩
  get_tenant_metrics := fun _ _ => .error "agg failed"
  now := 7

/-- A state on the Images tab with one image. -/
def c7AppG : App := { baseApp with tab := .Images, images := [img1], images_total := 1 }

/-- A state on the Metrics tab with two buckets, second selected. -/
def c7AppB : App :=
  { baseApp with tab := .Metrics, metrics := some mtr2, metrics_selected := 1 }

/-- A state on the Images tab with no images. -/
def c7AppG0 : App := { baseApp with tab := .Images }

/-- A state on the Metrics tab with no metrics result. -/
def c7AppB0 : App := { baseApp with tab := .Metrics }

/-- The selection indices that the drill-down operations index with are valid
whenever their collections are non-empty. -/
def selection_inv (app : App) : Prop :=
  (app.instances ≠ [] → app.instances_selected < app.instances.length) ∧
  (app.checkpoints ≠ [] → app.checkpoints_selected < app.checkpoints.length)

/-- C8: a server string that fails the external address parse makes `App::new`
fall back to 127.0.0.1:8002 instead of failing startup, and every other field
of the new state is the same as when the parse succeeds. -/
theorem c8_new_falls_back_to_default (sk : Bool) (t : Option String) (r : Nat)
    (a : SocketAddr) :
    (App.new none sk t r).server_addr = defaultAddr ∧
    App.new (some a) sk t r = { App.new none sk t r with server_addr := a } := by
  exact ⟨rfl, rfl⟩

/-- C5: when SDK creation succeeds but the connect step of a refresh fails,
the whole refresh is the identity except that `connected` is cleared and the
error slot holds a connection-scoped message; in particular health,
instances, images and metrics are untouched. -/
theorem c5_connect_failure_aborts (app : App) (o : RefreshOracle) (e : String)
    (hsdk : o.create_sdk = .ok ()) (hconn : o.connect = .error e) :
    app.refresh o =
      { app with error := some ("Connection failed: " ++ e), connected := false } := by
  simp [App.refresh, hsdk, hconn]

/-- C5 witness: the connect-failing oracle on the fresh state. -/
theorem c5_connect_failure_witness :
    baseApp.refresh connectFailOracle =
      { baseApp with error := some "Connection failed: refused", connected := false } :=
  c5_connect_failure_aborts baseApp connectFailOracle "refused" rfl rfl

/-- C10: a successful checkpoint-list fetch replaces the checkpoint
collection, resets its selection index to 0 regardless of its previous value,
and pushes the `CheckpointsList` frame; nothing else changes. -/
theorem c10_checkpoint_selection_reset (app : App) (o : CheckpointsOracle)
    (info : InstanceInfo) (r : ListCheckpointsResult)
    (hd : app.instance_detail = some info)
    (hsdk : o.create_sdk = .ok ()) (hconn : o.connect = .ok ())
    (hl : o.list_checkpoints info.instance_id 100 = .ok r) :
    app.open_checkpoints_list o =
      { app with
        checkpoints := r.checkpoints,
        checkpoints_total := r.total_count,
        checkpoints_selected := 0,
        view_mode := .CheckpointsList } := by
  simp [App.open_checkpoints_list, hd, hsdk, hconn, hl]

/-- C10 witness: a state with a stale checkpoint selection of 3 gets reset to 0. -/
theorem c10_checkpoint_selection_reset_witness :
    ({ baseApp with
       instance_detail := some info1,
       checkpoints_selected := 3 } : App).open_checkpoints_list
        ⟨.ok (), .ok (), fun _ _ => .ok ⟨[cpSum1], 1⟩⟩ =
      { baseApp with
        instance_detail := some info1,
        checkpoints := [cpSum1],
        checkpoints_total := 1,
        checkpoints_selected := 0,
        view_mode := .CheckpointsList } :=
  c10_checkpoint_selection_reset _ _ info1 ⟨[cpSum1], 1⟩ rfl rfl rfl rfl

/-- C1 counterexample: a refresh whose connect step fails does NOT stamp the
last-refresh timestamp.  On the fresh state (timestamp `none`) with a
connect-failing oracle whose clock reads 42, the timestamp is still `none`
after the refresh, not `some 42` as the claim requires. -/
theorem c1_stamp_counterexample :
    connectFailOracle.connect = Except.error "refused" ∧
    baseApp.last_refresh = none ∧
    (baseApp.refresh connectFailOracle).last_refresh = none := by
  exact ⟨rfl, rfl, rfl⟩

/-- C1 (amended): the last-refresh timestamp is stamped to "now" only when
SDK creation and the connect step both succeed — then it is stamped after
all fetches regardless of their individual outcomes; when SDK creation or
the connect step fails, the refresh returns early and the timestamp is
unchanged. -/
theorem c1_stamp_requires_connect (a1 a2 a3 : App) (o1 o2 o3 : RefreshOracle)
    (e2 e3 : String)
    (h1s : o1.create_sdk = .ok ()) (h1c : o1.connect = .ok ())
    (h2s : o2.create_sdk = .ok ()) (h2c : o2.connect = .error e2)
    (h3s : o3.create_sdk = .error e3) :
    (a1.refresh o1).last_refresh = some o1.now ∧
    (a2.refresh o2).last_refresh = a2.last_refresh ∧
    (a3.refresh o3).last_refresh = a3.last_refresh := by
  refine ⟨?_, ?_, ?_⟩
  · simp [App.refresh, h1s, h1c]
  · simp [App.refresh, h2s, h2c]
  · simp [App.refresh, h3s]

/-- C1 witness: both the successful and the failing instantiation, concrete. -/
theorem c1_stamp_requires_connect_witness :
    (baseApp.refresh emptyOkOracle).last_refresh = some 42 ∧
    (baseApp.refresh connectFailOracle).last_refresh = baseApp.last_refresh ∧
    (baseApp.refresh { connectFailOracle with create_sdk := .error "tls" }).last_refresh
      = baseApp.last_refresh :=
  c1_stamp_requires_connect baseApp baseApp baseApp emptyOkOracle connectFailOracle
    { connectFailOracle with create_sdk := .error "tls" } "refused" "tls"
    rfl rfl rfl rfl rfl

/-- C2 counterexample: replacing the instance collection by an empty one does
not reset the selection index to 0.  A state holding three instances with
selection 2 refreshed by an oracle returning an empty instance list ends with
an empty collection but selection still 2, where the claim requires 0. -/
theorem c2_clamp_counterexample :
    (({ baseApp with
        instances := [inst1, inst1, inst1],
        instances_total := 3,
        instances_selected := 2 } : App).refresh emptyOkOracle).instances = [] ∧
    (({ baseApp with
        instances := [inst1, inst1, inst1],
        instances_total := 3,
        instances_selected := 2 } : App).refresh emptyOkOracle).instances_selected = 2 := by
  exact ⟨rfl, rfl⟩

set_option maxHeartbeats 1600000 in
/-- Dispatching a key can only terminate the loop at the `List` frame, and
only for `Esc` or `q`. -/
lemma handle_key_quit_inv (a : App) (fx : Effects) (k : KeyCode)
    (h : handle_key a fx k = .quit) :
    a.view_mode = .List ∧ (k = .Esc ∨ k = .Char 'q') := by
  unfold handle_key at h
  split at h <;> split at h <;>
    first
      | (split at h <;> simp_all)
      | simp_all

/-- C3 counterexample: at the base `List` frame the go-back symbol `Esc` is
not a no-op continuation — it terminates the event loop, exactly like the
quit symbol. -/
theorem c3_esc_quits_counterexample :
    baseApp.view_mode = ViewMode.List ∧ handle_key baseApp failFx .Esc = .quit := by
  exact ⟨rfl, rfl⟩

/-- C3 (amended): at the base `List` frame both the quit symbol `q` and the
go-back symbol `Esc` terminate the event loop (the `App::go_back` mutator
itself is a no-op there, but the dispatcher returns instead of invoking it);
in any deeper frame no key terminates the loop, so termination happens only
at the base frame. -/
theorem c3_quit_semantics (a1 a2 : App) (fx1 fx2 : Effects) (k : KeyCode)
    (h1 : a1.view_mode = .List) (h2 : a2.view_mode ≠ .List) :
    handle_key a1 fx1 .Esc = .quit ∧
    handle_key a1 fx1 (.Char 'q') = .quit ∧
    a1.go_back = a1 ∧
    handle_key a2 fx2 k ≠ .quit := by
  refine ⟨?_, ?_, ?_, fun hq => h2 (handle_key_quit_inv a2 fx2 k hq).1⟩
  · unfold handle_key
    rw [h1]
  · unfold handle_key
    rw [h1]
    exact rfl
  · unfold App.go_back
    rw [h1]

/-- C3 witness: the fresh state at the `List` frame quits on `Esc` and `q`;
a state in the instance-detail frame does not quit on `Esc`. -/
theorem c3_quit_semantics_witness :
    handle_key baseApp failFx .Esc = .quit ∧
    handle_key baseApp failFx (.Char 'q') = .quit ∧
    baseApp.go_back = baseApp ∧
    handle_key { baseApp with view_mode := .InstanceDetail } failFx .Esc ≠ .quit :=
  c3_quit_semantics baseApp { baseApp with view_mode := .InstanceDetail }
    failFx failFx .Esc rfl (by decide)

/-- C4 counterexample: a successful checkpoint-list drill-down does NOT reset
the detail scroll offset.  From the instance-detail frame with scroll 5, a
fully successful `open_checkpoints_list` pushes the `CheckpointsList` frame
but leaves the scroll offset at 5, where the claim requires 0. -/
theorem c4_scroll_counterexample :
    (scrolledDetailApp.open_checkpoints_list
        ⟨.ok (), .ok (), fun _ _ => .ok ⟨[cpSum1], 1⟩⟩).view_mode = .CheckpointsList ∧
    (scrolledDetailApp.open_checkpoints_list
        ⟨.ok (), .ok (), fun _ _ => .ok ⟨[cpSum1], 1⟩⟩).detail_scroll = 5 := by
  exact ⟨rfl, rfl⟩

/-- C4 (amended): each drill-down fetch aborts on SDK-creation, connect or
fetch failure (and on a checkpoint "not found" result), setting only the
error slot and leaving the view mode and everything else unchanged; on
success it pushes the corresponding frame, and `open_instance_detail` and
`open_checkpoint_detail` additionally reset the detail scroll offset to
zero, while `open_checkpoints_list` leaves the scroll offset unchanged and
instead resets the checkpoint selection. -/
theorem c4_drilldown_effects (a : App) (info infoR : InstanceInfo) (e : String)
    (rc : ListCheckpointsResult) (cp : Checkpoint)
    (h1 : ¬ a.instances.isEmpty)
    (h2 : a.instance_detail = some info)
    (h3 : ¬ a.checkpoints.isEmpty) :
    (a.open_instance_detail ⟨.error e, .ok (), fun _ => .ok infoR⟩ =
        { a with error := some ("Failed to create SDK: " ++ e) }) ∧
    (a.open_instance_detail ⟨.ok (), .error e, fun _ => .ok infoR⟩ =
        { a with error := some ("Connection failed: " ++ e) }) ∧
    (a.open_instance_detail ⟨.ok (), .ok (), fun _ => .error e⟩ =
        { a with error := some ("Failed to get instance details: " ++ e) }) ∧
    (a.open_instance_detail ⟨.ok (), .ok (), fun _ => .ok infoR⟩ =
        { a with
          instance_detail := some infoR,
          view_mode := .InstanceDetail,
          detail_scroll := 0 }) ∧
    (a.open_checkpoints_list ⟨.error e, .ok (), fun _ _ => .ok rc⟩ =
        { a with error := some ("Failed to create SDK: " ++ e) }) ∧
    (a.open_checkpoints_list ⟨.ok (), .error e, fun _ _ => .ok rc⟩ =
        { a with error := some ("Connection failed: " ++ e) }) ∧
    (a.open_checkpoints_list ⟨.ok (), .ok (), fun _ _ => .error e⟩ =
        { a with error := some ("Failed to list checkpoints: " ++ e) }) ∧
    (a.open_checkpoints_list ⟨.ok (), .ok (), fun _ _ => .ok rc⟩ =
        { a with
          checkpoints := rc.checkpoints,
          checkpoints_total := rc.total_count,
          checkpoints_selected := 0,
          view_mode := .CheckpointsList }) ∧
    (a.open_checkpoint_detail ⟨.error e, .ok (), fun _ _ => .ok (some cp)⟩ =
        { a with error := some ("Failed to create SDK: " ++ e) }) ∧
    (a.open_checkpoint_detail ⟨.ok (), .error e, fun _ _ => .ok (some cp)⟩ =
        { a with error := some ("Connection failed: " ++ e) }) ∧
    (a.open_checkpoint_detail ⟨.ok (), .ok (), fun _ _ => .error e⟩ =
        { a with error := some ("Failed to get checkpoint: " ++ e) }) ∧
    (a.open_checkpoint_detail ⟨.ok (), .ok (), fun _ _ => .ok none⟩ =
        { a with error := some "Checkpoint not found" }) ∧
    (a.open_checkpoint_detail ⟨.ok (), .ok (), fun _ _ => .ok (some cp)⟩ =
        { a with
          checkpoint_detail := some cp,
          view_mode := .CheckpointDetail,
          detail_scroll := 0 }) := by
  refine ⟨?_, ?_, ?_, ?_, ?_, ?_, ?_, ?_, ?_, ?_, ?_, ?_, ?_⟩ <;>
    simp [App.open_instance_detail, App.open_checkpoints_list,
      App.open_checkpoint_detail, h1, h2, h3]

/-- C4 witness: all thirteen branch equations at a concrete state. -/
theorem c4_drilldown_effects_witness :
    (scrolledDetailApp.open_instance_detail ⟨.ok (), .error "refused", fun _ => .ok info1⟩ =
        { scrolledDetailApp with error := some "Connection failed: refused" }) ∧
    (scrolledDetailApp.open_checkpoints_list ⟨.ok (), .ok (), fun _ _ => .ok ⟨[cpSum1], 1⟩⟩ =
        { scrolledDetailApp with
          checkpoints := [cpSum1],
          checkpoints_total := 1,
          checkpoints_selected := 0,
          view_mode := .CheckpointsList }) ∧
    (scrolledDetailApp.open_checkpoint_detail ⟨.ok (), .ok (), fun _ _ => .ok (some cpFull1)⟩ =
        { scrolledDetailApp with
          checkpoint_detail := some cpFull1,
          view_mode := .CheckpointDetail,
          detail_scroll := 0 }) := by
  exact ⟨(c4_drilldown_effects scrolledDetailApp info1 info1 "refused" ⟨[cpSum1], 1⟩ cpFull1
      (by decide) (by decide) (by decide)).2.1,
    (c4_drilldown_effects scrolledDetailApp info1 info1 "refused" ⟨[cpSum1], 1⟩ cpFull1
      (by decide) (by decide) (by decide)).2.2.2.2.2.2.2.1,
    (c4_drilldown_effects scrolledDetailApp info1 info1 "refused" ⟨[cpSum1], 1⟩ cpFull1
      (by decide) (by decide) (by decide)).2.2.2.2.2.2.2.2.2.2.2.2⟩

/-! Characterizations of the individual blocks of `App::refresh`, used to
reason about full refresh cycles step by step. -/

/-- When SDK creation and connect succeed, a refresh is the four fetch
blocks in order followed by the timestamp stamp. -/
lemma refresh_ok_connect (a : App) (o : RefreshOracle)
    (hsdk : o.create_sdk = .ok ()) (hconn : o.connect = .ok ()) :
    a.refresh o =
      { refresh_metrics o (refresh_images o (refresh_instances o
          (refresh_health o { a with error := none, connected := true })))
        with last_refresh := some o.now } := by
  simp [App.refresh, hsdk, hconn]

/-- Successful health check commits the snapshot. -/
lemma refresh_health_ok (o : RefreshOracle) (b : App) (h : HealthStatus)
    (hh : o.health_check = .ok h) :
    refresh_health o b = { b with health := some h } := by
  unfold refresh_health
  rw [hh]

/-- Failed health check only sets the error slot. -/
lemma refresh_health_err (o : RefreshOracle) (b : App) (e : String)
    (hh : o.health_check = .error e) :
    refresh_health o b = { b with error := some ("Health check failed: " ++ e) } := by
  unfold refresh_health
  rw [hh]

/-- Successful instance fetch commits the new collection and clamps the
selection exactly as the source does. -/
lemma refresh_instances_ok (o : RefreshOracle) (b : App) (ri : ListInstancesResult)
    (hb : o.list_instances b.tenant_id b.status_filter.to_instance_status 100 = .ok ri) :
    refresh_instances o b =
      if b.instances_selected ≥ ri.instances.length ∧ ¬ ri.instances.isEmpty then
        { b with
          instances := ri.instances,
          instances_total := ri.total_count,
          instances_selected := ri.instances.length - 1 }
      else { b with instances := ri.instances, instances_total := ri.total_count } := by
  unfold refresh_instances
  rw [hb]

/-- Failed instance fetch only sets the error slot. -/
lemma refresh_instances_err (o : RefreshOracle) (b : App) (e : String)
    (hb : o.list_instances b.tenant_id b.status_filter.to_instance_status 100 = .error e) :
    refresh_instances o b = { b with error := some ("Failed to list instances: " ++ e) } := by
  unfold refresh_instances
  rw [hb]

/-- Successful image fetch commits the new collection and clamps the selection. -/
lemma refresh_images_ok (o : RefreshOracle) (b : App) (rg : ListImagesResult)
    (hb : o.list_images b.tenant_id 100 = .ok rg) :
    refresh_images o b =
      if b.images_selected ≥ rg.images.length ∧ ¬ rg.images.isEmpty then
        { b with
          images := rg.images,
          images_total := rg.total_count,
          images_selected := rg.images.length - 1 }
      else { b with images := rg.images, images_total := rg.total_count } := by
  unfold refresh_images
  rw [hb]

/-- Failed image fetch only sets the error slot. -/
lemma refresh_images_err (o : RefreshOracle) (b : App) (e : String)
    (hb : o.list_images b.tenant_id 100 = .error e) :
    refresh_images o b = { b with error := some ("Failed to list images: " ++ e) } := by
  unfold refresh_images
  rw [hb]

/-- Without a tenant filter the metrics block does nothing. -/
lemma refresh_metrics_none (o : RefreshOracle) (b : App) (hb : b.tenant_id = none) :
    refresh_metrics o b = b := by
  unfold refresh_metrics
  rw [hb]

/-- Successful metrics fetch commits the result and clamps the bucket selection. -/
lemma refresh_metrics_ok (o : RefreshOracle) (b : App) (t : String)
    (rm : TenantMetricsResult) (hb : b.tenant_id = some t)
    (hm : o.get_tenant_metrics t b.metrics_granularity = .ok rm) :
    refresh_metrics o b =
      if b.metrics_selected ≥ rm.buckets.length ∧ 0 < rm.buckets.length then
        { b with metrics := some rm, metrics_selected := rm.buckets.length - 1 }
      else { b with metrics := some rm } := by
  unfold refresh_metrics
  rw [hb]
  dsimp only
  rw [hm]

/-- Failed metrics fetch only sets the error slot. -/
lemma refresh_metrics_err (o : RefreshOracle) (b : App) (t : String) (e : String)
    (hb : b.tenant_id = some t)
    (hm : o.get_tenant_metrics t b.metrics_granularity = .error e) :
    refresh_metrics o b = { b with error := some ("Failed to get metrics: " ++ e) } := by
  unfold refresh_metrics
  rw [hb]
  dsimp only
  rw [hm]

set_option maxHeartbeats 4000000 in
/-- C2 (amended): a refresh that successfully replaces a collection clamps
its selection index to `min k (n-1)` when the new length `n` is positive,
but when the new collection is empty the selection index is left at its
prior value `k` (it is not reset to 0).  This holds for the instance, image
and metrics-bucket collections alike. -/
theorem c2_selection_clamp (a : App) (o : RefreshOracle) (t : String)
    (ri : ListInstancesResult) (rg : ListImagesResult) (rm : TenantMetricsResult)
    (hsdk : o.create_sdk = .ok ()) (hconn : o.connect = .ok ())
    (ht : a.tenant_id = some t)
    (hi : o.list_instances a.tenant_id a.status_filter.to_instance_status 100 = .ok ri)
    (hg : o.list_images a.tenant_id 100 = .ok rg)
    (hm : o.get_tenant_metrics t a.metrics_granularity = .ok rm) :
    ((a.refresh o).instances_selected =
        if 0 < ri.instances.length then min a.instances_selected (ri.instances.length - 1)
        else a.instances_selected) ∧
    ((a.refresh o).images_selected =
        if 0 < rg.images.length then min a.images_selected (rg.images.length - 1)
        else a.images_selected) ∧
    ((a.refresh o).metrics_selected =
        if 0 < rm.buckets.length then min a.metrics_selected (rm.buckets.length - 1)
        else a.metrics_selected) := by
  obtain ⟨osdk, oconn, ohealth, oli, olim, ogm, onow⟩ := o
  dsimp only at hsdk hconn hi hg hm
  subst hsdk
  subst hconn
  unfold App.refresh refresh_health refresh_instances refresh_images refresh_metrics
  rcases ohealth with he | h0 <;>
    dsimp only <;>
    rw [hi] <;>
    dsimp only <;>
    split_ifs <;>
    dsimp only <;>
    rw [hg] <;>
    dsimp only <;>
    split_ifs <;>
    dsimp only <;>
    rw [ht] <;>
    dsimp only <;>
    rw [hm] <;>
    dsimp only <;>
    split_ifs <;>
    refine ⟨?_, ?_, ?_⟩ <;>
    simp_all [List.isEmpty_iff, ← List.length_eq_zero] <;>
    omega

/-- C2 witness: selection 2 clamps to 0 on the one-row instance list, the
stale image selection survives the empty replacement, and the metric
selection clamps to the last bucket. -/
theorem c2_selection_clamp_witness :
    (c2App.refresh c2Oracle).instances_selected = 0 ∧
    (c2App.refresh c2Oracle).images_selected = 1 ∧
    (c2App.refresh c2Oracle).metrics_selected = 1 :=
  ⟨(c2_selection_clamp c2App c2Oracle "t-1" ⟨[inst1], 1⟩ ⟨[], 0⟩ mtr2
      rfl rfl rfl rfl rfl rfl).1.trans (by decide),
   (c2_selection_clamp c2App c2Oracle "t-1" ⟨[inst1], 1⟩ ⟨[], 0⟩ mtr2
      rfl rfl rfl rfl rfl rfl).2.1.trans (by decide),
   (c2_selection_clamp c2App c2Oracle "t-1" ⟨[inst1], 1⟩ ⟨[], 0⟩ mtr2
      rfl rfl rfl rfl rfl rfl).2.2.trans (by decide)⟩

set_option maxHeartbeats 4000000 in
/-- C6: in a refresh where the connection succeeds, the instance fetch fails
and the image fetch succeeds, the final state holds the new image data, the
pre-existing instance data unchanged, and an error naming the instance
fetch; and whenever a later fetch (metrics) fails, its error overwrites any
earlier one — the last error wins. -/
theorem c6_partial_failure_commit (a : App) (o : RefreshOracle) (e : String)
    (rg : ListImagesResult)
    (a2 : App) (o2 : RefreshOracle) (t2 e2 : String)
    (hsdk : o.create_sdk = .ok ()) (hconn : o.connect = .ok ())
    (ht : a.tenant_id = none)
    (hi : o.list_instances a.tenant_id a.status_filter.to_instance_status 100 = .error e)
    (hg : o.list_images a.tenant_id 100 = .ok rg)
    (h2sdk : o2.create_sdk = .ok ()) (h2conn : o2.connect = .ok ())
    (h2t : a2.tenant_id = some t2)
    (h2m : o2.get_tenant_metrics t2 a2.metrics_granularity = .error e2) :
    ((a.refresh o).images = rg.images ∧
     (a.refresh o).images_total = rg.total_count ∧
     (a.refresh o).instances = a.instances ∧
     (a.refresh o).instances_total = a.instances_total ∧
     (a.refresh o).instances_selected = a.instances_selected ∧
     (a.refresh o).error = some ("Failed to list instances: " ++ e)) ∧
    (a2.refresh o2).error = some ("Failed to get metrics: " ++ e2) := by
  constructor
  · obtain ⟨osdk, oconn, ohealth, oli, olim, ogm, onow⟩ := o
    dsimp only at hsdk hconn hi hg
    subst hsdk
    subst hconn
    unfold App.refresh refresh_health refresh_instances refresh_images refresh_metrics
    rcases ohealth with he | h0 <;>
      dsimp only <;>
      rw [hi] <;>
      dsimp only <;>
      rw [hg] <;>
      dsimp only <;>
      split_ifs <;>
      rw [ht] <;>
      dsimp only <;>
      exact ⟨rfl, rfl, rfl, rfl, rfl, rfl⟩
  · obtain ⟨osdk, oconn, ohealth, oli, olim, ogm, onow⟩ := o2
    dsimp only at h2sdk h2conn h2m
    subst h2sdk
    subst h2conn
    unfold App.refresh refresh_health refresh_instances refresh_images refresh_metrics
    rcases ohealth with he | h0
    all_goals dsimp only
    all_goals rcases hE : oli a2.tenant_id a2.status_filter.to_instance_status 100 with eI | ri2
    all_goals dsimp only
    all_goals try split_ifs
    all_goals try dsimp only
    all_goals rcases hG : olim a2.tenant_id 100 with eG | rg2
    all_goals dsimp only
    all_goals try split_ifs
    all_goals try dsimp only
    all_goals rw [h2t]
    all_goals dsimp only
    all_goals rw [h2m]

/-- C6 witness: the failed instance fetch leaves the two old rows and the
old selection; the image fetch commits; the error names the instance fetch;
and in the tenant-filtered run the metrics error wins last. -/
theorem c6_partial_failure_commit_witness :
    ((c6App.refresh c6Oracle).images = [img1] ∧
     (c6App.refresh c6Oracle).images_total = 1 ∧
     (c6App.refresh c6Oracle).instances = [inst1, inst1] ∧
     (c6App.refresh c6Oracle).instances_total = 2 ∧
     (c6App.refresh c6Oracle).instances_selected = 1 ∧
     (c6App.refresh c6Oracle).error = some "Failed to list instances: db down") ∧
    (c2App.refresh c6Oracle2).error = some "Failed to get metrics: agg failed" :=
  c6_partial_failure_commit c6App c6Oracle "db down" ⟨[img1], 1⟩ c2App c6Oracle2
    "t-1" "agg failed" rfl rfl rfl rfl rfl rfl rfl rfl rfl

/-- On the Instances tab with a non-empty list, one `next_item` step is a
cyclic increment. -/
lemma next_item_instances (app : App) (h : app.tab = .Instances)
    (hne : app.instances ≠ []) :
    app.next_item =
      { app with instances_selected :=
          (app.instances_selected + 1) % app.instances.length } := by
  simp [App.next_item, h, List.isEmpty_iff, hne]

/-- On the Instances tab with a non-empty list, one `previous_item` step is a
cyclic decrement. -/
lemma previous_item_instances (app : App) (h : app.tab = .Instances)
    (hne : app.instances ≠ []) :
    app.previous_item =
      { app with instances_selected :=
          if app.instances_selected = 0 then app.instances.length - 1
          else app.instances_selected - 1 } := by
  simp [App.previous_item, h, List.isEmpty_iff, hne]

/-- The source's `checked_sub(1).unwrap_or(len - 1)` step equals adding
`n - 1` modulo `n`. -/
lemma pred_mod (n t : Nat) (hlt : t < n) :
    (if t = 0 then n - 1 else t - 1) = (t + (n - 1)) % n := by
  rcases Nat.eq_zero_or_pos t with h0 | hpos
  · subst h0
    simp
  · have harith : t + (n - 1) = (t - 1) + n := by omega
    rw [if_neg (by omega), harith, Nat.add_mod_right]
    exact (Nat.mod_eq_of_lt (by omega)).symm

/-- Iterating `next_item` on the Instances tab advances the selection by `k`
modulo the length. -/
lemma next_item_iterate_instances (app : App) (h : app.tab = .Instances)
    (hlt : app.instances_selected < app.instances.length) (k : Nat) :
    App.next_item^[k] app =
      { app with instances_selected :=
          (app.instances_selected + k) % app.instances.length } := by
  induction k with
  | zero => simp [Nat.mod_eq_of_lt hlt]
  | succ k ih =>
      rw [Function.iterate_succ_apply', ih, next_item_instances _ ?ht ?hne]
      case ht => exact h
      case hne =>
        exact List.ne_nil_of_length_pos (show 0 < app.instances.length by omega)
      have harith :
          ((app.instances_selected + k) % app.instances.length + 1) %
              app.instances.length =
            (app.instances_selected + (k + 1)) % app.instances.length := by
        rw [Nat.mod_add_mod, Nat.add_assoc]
      simp [harith]

/-- Iterating `previous_item` on the Instances tab retreats the selection by
`k` modulo the length. -/
lemma previous_item_iterate_instances (app : App) (h : app.tab = .Instances)
    (hlt : app.instances_selected < app.instances.length) (k : Nat) :
    App.previous_item^[k] app =
      { app with instances_selected :=
          (app.instances_selected + k * (app.instances.length - 1)) %
            app.instances.length } := by
  induction k with
  | zero => simp [Nat.mod_eq_of_lt hlt]
  | succ k ih =>
      rw [Function.iterate_succ_apply', ih, previous_item_instances _ ?ht ?hne]
      case ht => exact h
      case hne =>
        exact List.ne_nil_of_length_pos (show 0 < app.instances.length by omega)
      have hmod : (app.instances_selected + k * (app.instances.length - 1)) %
          app.instances.length < app.instances.length := Nat.mod_lt _ (by omega)
      have harith :
          (if (app.instances_selected + k * (app.instances.length - 1)) %
                app.instances.length = 0 then app.instances.length - 1
           else (app.instances_selected + k * (app.instances.length - 1)) %
                app.instances.length - 1) =
            (app.instances_selected + (k + 1) * (app.instances.length - 1)) %
              app.instances.length := by
        rw [pred_mod _ _ hmod, Nat.mod_add_mod, Nat.succ_mul, ← Nat.add_assoc]
      simp [harith]

/-- Cycling all the way around the instance list returns to the start. -/
lemma cycle_instances (app : App) (h : app.tab = .Instances)
    (hlt : app.instances_selected < app.instances.length) :
    App.next_item^[app.instances.length] app = app ∧
    App.previous_item^[app.instances.length] app = app := by
  constructor
  · rw [next_item_iterate_instances app h hlt]
    simp [Nat.add_mod_right, Nat.mod_eq_of_lt hlt]
  · rw [previous_item_iterate_instances app h hlt]
    have harith : (app.instances_selected +
        app.instances.length * (app.instances.length - 1)) %
          app.instances.length = app.instances_selected := by
      rw [Nat.mul_comm, Nat.add_mul_mod_self_right]
      exact Nat.mod_eq_of_lt hlt
    simp [harith]

/-- On the Images tab with a non-empty list, one `next_item` step is a cyclic
increment. -/
lemma next_item_images (app : App) (h : app.tab = .Images)
    (hne : app.images ≠ []) :
    app.next_item =
      { app with images_selected := (app.images_selected + 1) % app.images.length } := by
  simp [App.next_item, h, List.isEmpty_iff, hne]

/-- On the Images tab with a non-empty list, one `previous_item` step is a
cyclic decrement. -/
lemma previous_item_images (app : App) (h : app.tab = .Images)
    (hne : app.images ≠ []) :
    app.previous_item =
      { app with images_selected :=
          if app.images_selected = 0 then app.images.length - 1
          else app.images_selected - 1 } := by
  simp [App.previous_item, h, List.isEmpty_iff, hne]

/-- On the Metrics tab with buckets present, one `next_item` step is a cyclic
increment over the buckets. -/
lemma next_item_metrics (app : App) (h : app.tab = .Metrics)
    (m : TenantMetricsResult) (hm : app.metrics = some m) (hne : m.buckets ≠ []) :
    app.next_item =
      { app with metrics_selected := (app.metrics_selected + 1) % m.buckets.length } := by
  simp [App.next_item, h, hm, List.isEmpty_iff, hne]

/-- On the Metrics tab with buckets present, one `previous_item` step is a
cyclic decrement over the buckets. -/
lemma previous_item_metrics (app : App) (h : app.tab = .Metrics)
    (m : TenantMetricsResult) (hm : app.metrics = some m) (hne : m.buckets ≠ []) :
    app.previous_item =
      { app with metrics_selected :=
          if app.metrics_selected = 0 then m.buckets.length - 1
          else app.metrics_selected - 1 } := by
  simp [App.previous_item, h, hm, List.isEmpty_iff, hne]

/-- Iterating `next_item` on the Images tab advances the selection modulo the
length. -/
lemma next_item_iterate_images (app : App) (h : app.tab = .Images)
    (hlt : app.images_selected < app.images.length) (k : Nat) :
    App.next_item^[k] app =
      { app with images_selected := (app.images_selected + k) % app.images.length } := by
  induction k with
  | zero => simp [Nat.mod_eq_of_lt hlt]
  | succ k ih =>
      rw [Function.iterate_succ_apply', ih, next_item_images _ ?ht ?hne]
      case ht => exact h
      case hne =>
        exact List.ne_nil_of_length_pos (show 0 < app.images.length by omega)
      have harith :
          ((app.images_selected + k) % app.images.length + 1) % app.images.length =
            (app.images_selected + (k + 1)) % app.images.length := by
        rw [Nat.mod_add_mod, Nat.add_assoc]
      simp [harith]

/-- Iterating `previous_item` on the Images tab retreats the selection modulo
the length. -/
lemma previous_item_iterate_images (app : App) (h : app.tab = .Images)
    (hlt : app.images_selected < app.images.length) (k : Nat) :
    App.previous_item^[k] app =
      { app with images_selected :=
          (app.images_selected + k * (app.images.length - 1)) % app.images.length } := by
  induction k with
  | zero => simp [Nat.mod_eq_of_lt hlt]
  | succ k ih =>
      rw [Function.iterate_succ_apply', ih, previous_item_images _ ?ht ?hne]
      case ht => exact h
      case hne =>
        exact List.ne_nil_of_length_pos (show 0 < app.images.length by omega)
      have hmod : (app.images_selected + k * (app.images.length - 1)) %
          app.images.length < app.images.length := Nat.mod_lt _ (by omega)
      have harith :
          (if (app.images_selected + k * (app.images.length - 1)) %
                app.images.length = 0 then app.images.length - 1
           else (app.images_selected + k * (app.images.length - 1)) %
                app.images.length - 1) =
            (app.images_selected + (k + 1) * (app.images.length - 1)) %
              app.images.length := by
        rw [pred_mod _ _ hmod, Nat.mod_add_mod, Nat.succ_mul, ← Nat.add_assoc]
      simp [harith]

/-- Iterating `next_item` on the Metrics tab advances the bucket selection
modulo the bucket count. -/
lemma next_item_iterate_metrics (app : App) (h : app.tab = .Metrics)
    (m : TenantMetricsResult) (hm : app.metrics = some m)
    (hlt : app.metrics_selected < m.buckets.length) (k : Nat) :
    App.next_item^[k] app =
      { app with metrics_selected := (app.metrics_selected + k) % m.buckets.length } := by
  induction k with
  | zero => simp [Nat.mod_eq_of_lt hlt]
  | succ k ih =>
      rw [Function.iterate_succ_apply', ih, next_item_metrics _ ?ht m ?hm ?hne]
      case ht => exact h
      case hm => exact hm
      case hne =>
        exact List.ne_nil_of_length_pos (show 0 < m.buckets.length by omega)
      have harith :
          ((app.metrics_selected + k) % m.buckets.length + 1) % m.buckets.length =
            (app.metrics_selected + (k + 1)) % m.buckets.length := by
        rw [Nat.mod_add_mod, Nat.add_assoc]
      simp [harith]

/-- Iterating `previous_item` on the Metrics tab retreats the bucket selection
modulo the bucket count. -/
lemma previous_item_iterate_metrics (app : App) (h : app.tab = .Metrics)
    (m : TenantMetricsResult) (hm : app.metrics = some m)
    (hlt : app.metrics_selected < m.buckets.length) (k : Nat) :
    App.previous_item^[k] app =
      { app with metrics_selected :=
          (app.metrics_selected + k * (m.buckets.length - 1)) % m.buckets.length } := by
  induction k with
  | zero => simp [Nat.mod_eq_of_lt hlt]
  | succ k ih =>
      rw [Function.iterate_succ_apply', ih, previous_item_metrics _ ?ht m ?hm ?hne]
      case ht => exact h
      case hm => exact hm
      case hne =>
        exact List.ne_nil_of_length_pos (show 0 < m.buckets.length by omega)
      have hmod : (app.metrics_selected + k * (m.buckets.length - 1)) %
          m.buckets.length < m.buckets.length := Nat.mod_lt _ (by omega)
      have harith :
          (if (app.metrics_selected + k * (m.buckets.length - 1)) %
                m.buckets.length = 0 then m.buckets.length - 1
           else (app.metrics_selected + k * (m.buckets.length - 1)) %
                m.buckets.length - 1) =
            (app.metrics_selected + (k + 1) * (m.buckets.length - 1)) %
              m.buckets.length := by
        rw [pred_mod _ _ hmod, Nat.mod_add_mod, Nat.succ_mul, ← Nat.add_assoc]
      simp [harith]

/-- `next_item` is a no-op on an empty collection (all three tabs), and both
selection movers are no-ops when metrics is absent or has no buckets. -/
lemma next_item_empty (a1 a2 a3 : App)
    (h1 : a1.tab = .Instances) (he1 : a1.instances = [])
    (h2 : a2.tab = .Images) (he2 : a2.images = [])
    (h3 : a3.tab = .Metrics) (he3 : ∀ m, a3.metrics = some m → m.buckets = []) :
    a1.next_item = a1 ∧ a1.previous_item = a1 ∧
    a2.next_item = a2 ∧ a2.previous_item = a2 ∧
    a3.next_item = a3 ∧ a3.previous_item = a3 := by
  refine ⟨?_, ?_, ?_, ?_, ?_, ?_⟩
  · simp [App.next_item, h1, he1]
  · simp [App.previous_item, h1, he1]
  · simp [App.next_item, h2, he2]
  · simp [App.previous_item, h2, he2]
  · unfold App.next_item
    rw [h3]
    dsimp only
    rcases hm : a3.metrics with _ | m
    · rfl
    · simp [he3 m hm]
  · unfold App.previous_item
    rw [h3]
    dsimp only
    rcases hm : a3.metrics with _ | m
    · rfl
    · simp [he3 m hm]

/-- C7: on each collection backing the active tab (instances, images,
metrics buckets) with length n and a valid starting selection, applying
`next_item` or `previous_item` exactly n times returns the state to its
starting value; on an empty (or absent) collection each application leaves
the state unchanged. -/
theorem c7_cyclic_navigation
    (aI : App) (hI : aI.tab = .Instances)
    (hIs : aI.instances_selected < aI.instances.length)
    (aG : App) (hG : aG.tab = .Images)
    (hGs : aG.images_selected < aG.images.length)
    (aB : App) (m : TenantMetricsResult) (hB : aB.tab = .Metrics)
    (hBm : aB.metrics = some m)
    (hBs : aB.metrics_selected < m.buckets.length)
    (aI0 : App) (hI0 : aI0.tab = .Instances) (hI0e : aI0.instances = [])
    (aG0 : App) (hG0 : aG0.tab = .Images) (hG0e : aG0.images = [])
    (aB0 : App) (hB0 : aB0.tab = .Metrics)
    (hB0e : ∀ mm, aB0.metrics = some mm → mm.buckets = []) :
    (App.next_item^[aI.instances.length] aI = aI ∧
     App.previous_item^[aI.instances.length] aI = aI) ∧
    (App.next_item^[aG.images.length] aG = aG ∧
     App.previous_item^[aG.images.length] aG = aG) ∧
    (App.next_item^[m.buckets.length] aB = aB ∧
     App.previous_item^[m.buckets.length] aB = aB) ∧
    (aI0.next_item = aI0 ∧ aI0.previous_item = aI0) ∧
    (aG0.next_item = aG0 ∧ aG0.previous_item = aG0) ∧
    (aB0.next_item = aB0 ∧ aB0.previous_item = aB0) := by
  obtain ⟨w1, w2, w3, w4, w5, w6⟩ := next_item_empty aI0 aG0 aB0 hI0 hI0e hG0 hG0e hB0 hB0e
  refine ⟨⟨?_, ?_⟩, ⟨?_, ?_⟩, ⟨?_, ?_⟩, ⟨w1, w2⟩, ⟨w3, w4⟩, ⟨w5, w6⟩⟩
  · rw [next_item_iterate_instances aI hI hIs]
    simp [Nat.add_mod_right, Nat.mod_eq_of_lt hIs]
  · rw [previous_item_iterate_instances aI hI hIs]
    have harith : (aI.instances_selected +
        aI.instances.length * (aI.instances.length - 1)) % aI.instances.length =
          aI.instances_selected := by
      rw [Nat.mul_comm, Nat.add_mul_mod_self_right]
      exact Nat.mod_eq_of_lt hIs
    simp [harith]
  · rw [next_item_iterate_images aG hG hGs]
    simp [Nat.add_mod_right, Nat.mod_eq_of_lt hGs]
  · rw [previous_item_iterate_images aG hG hGs]
    have harith : (aG.images_selected +
        aG.images.length * (aG.images.length - 1)) % aG.images.length =
          aG.images_selected := by
      rw [Nat.mul_comm, Nat.add_mul_mod_self_right]
      exact Nat.mod_eq_of_lt hGs
    simp [harith]
  · rw [next_item_iterate_metrics aB hB m hBm hBs]
    simp [Nat.add_mod_right, Nat.mod_eq_of_lt hBs]
  · rw [previous_item_iterate_metrics aB hB m hBm hBs]
    have harith : (aB.metrics_selected +
        m.buckets.length * (m.buckets.length - 1)) % m.buckets.length =
          aB.metrics_selected := by
      rw [Nat.mul_comm, Nat.add_mul_mod_self_right]
      exact Nat.mod_eq_of_lt hBs
    simp [harith]

/-- C7 witness: two instances cycle in 2 steps, one image in 1 step, two
buckets in 2 steps; the empty-collection movers are no-ops. -/
theorem c7_cyclic_navigation_witness :
    (App.next_item^[2] c6App = c6App ∧ App.previous_item^[2] c6App = c6App) ∧
    (App.next_item^[1] c7AppG = c7AppG ∧ App.previous_item^[1] c7AppG = c7AppG) ∧
    (App.next_item^[2] c7AppB = c7AppB ∧ App.previous_item^[2] c7AppB = c7AppB) ∧
    (baseApp.next_item = baseApp ∧ baseApp.previous_item = baseApp) ∧
    (c7AppG0.next_item = c7AppG0 ∧ c7AppG0.previous_item = c7AppG0) ∧
    (c7AppB0.next_item = c7AppB0 ∧ c7AppB0.previous_item = c7AppB0) :=
  c7_cyclic_navigation c6App rfl (by decide) c7AppG rfl (by decide)
    c7AppB mtr2 rfl rfl (by decide) baseApp rfl rfl c7AppG0 rfl rfl c7AppB0 rfl
    (fun _ h => nomatch h)

/-- Each drill-down operation returns the state unchanged when its guard
collection is missing. -/
lemma open_instance_detail_empty (a : App) (o : DetailOracle)
    (he : a.instances = []) : a.open_instance_detail o = a := by
  simp [App.open_instance_detail, he]

lemma open_checkpoints_list_none (a : App) (o : CheckpointsOracle)
    (hd : a.instance_detail = none) : a.open_checkpoints_list o = a := by
  simp [App.open_checkpoints_list, hd]

lemma open_checkpoint_detail_empty (a : App) (o : CheckpointDetailOracle)
    (he : a.checkpoints = []) : a.open_checkpoint_detail o = a := by
  simp [App.open_checkpoint_detail, he]

/-- `next_item` preserves the selection invariant. -/
lemma next_item_selection_inv (a : App) (h : selection_inv a) :
    selection_inv a.next_item := by
  obtain ⟨hin, hcp⟩ := h
  unfold App.next_item
  split <;> (try split) <;> (try split) <;>
    first
    | exact ⟨hin, hcp⟩
    | (refine ⟨fun hne => ?_, fun hne => ?_⟩ <;>
        dsimp only at hne ⊢ <;>
        first
        | exact hin hne
        | exact hcp hne
        | exact Nat.mod_lt _
            (by simp_all [List.isEmpty_iff, ← List.length_eq_zero]; omega))

/-- `previous_item` preserves the selection invariant. -/
lemma previous_item_selection_inv (a : App) (h : selection_inv a) :
    selection_inv a.previous_item := by
  obtain ⟨hin, hcp⟩ := h
  unfold App.previous_item
  split <;> (try split) <;> (try split) <;>
    first
    | exact ⟨hin, hcp⟩
    | (refine ⟨fun hne => ?_, fun hne => ?_⟩ <;>
        dsimp only at hne ⊢ <;>
        first
        | exact hin hne
        | exact hcp hne
        | (simp_all [List.isEmpty_iff, ← List.length_eq_zero] <;> omega))

/-- `next_checkpoint` preserves the selection invariant. -/
lemma next_checkpoint_selection_inv (a : App) (h : selection_inv a) :
    selection_inv a.next_checkpoint := by
  obtain ⟨hin, hcp⟩ := h
  unfold App.next_checkpoint
  split
  · exact ⟨hin, hcp⟩
  · refine ⟨fun hne => ?_, fun hne => ?_⟩ <;>
      dsimp only at hne ⊢
    · exact hin hne
    · exact Nat.mod_lt _
        (by simp_all [List.isEmpty_iff, ← List.length_eq_zero]; omega)

/-- `previous_checkpoint` preserves the selection invariant. -/
lemma previous_checkpoint_selection_inv (a : App) (h : selection_inv a) :
    selection_inv a.previous_checkpoint := by
  obtain ⟨hin, hcp⟩ := h
  unfold App.previous_checkpoint
  split
  · exact ⟨hin, hcp⟩
  · refine ⟨fun hne => ?_, fun hne => ?_⟩ <;>
      dsimp only at hne ⊢
    · exact hin hne
    · split <;> (simp_all [List.isEmpty_iff, ← List.length_eq_zero]; try omega)

/-- `go_back` preserves the selection invariant. -/
lemma go_back_selection_inv (a : App) (h : selection_inv a) :
    selection_inv a.go_back := by
  obtain ⟨hin, hcp⟩ := h
  unfold App.go_back
  split
  · exact ⟨hin, hcp⟩
  · exact ⟨hin, hcp⟩
  · exact ⟨hin, fun hne => absurd rfl hne⟩
  · exact ⟨hin, hcp⟩

/-- `open_instance_detail` preserves the selection invariant. -/
lemma open_instance_detail_selection_inv (a : App) (o : DetailOracle)
    (h : selection_inv a) : selection_inv (a.open_instance_detail o) := by
  obtain ⟨hin, hcp⟩ := h
  obtain ⟨osdk, oconn, og⟩ := o
  unfold App.open_instance_detail
  split
  · exact ⟨hin, hcp⟩
  · rcases osdk with e | _
    · exact ⟨hin, hcp⟩
    rcases oconn with e | _
    · exact ⟨hin, hcp⟩
    dsimp only
    rcases og (a.instances.getD a.instances_selected default).instance_id with e | info <;>
      exact ⟨hin, hcp⟩

/-- `open_checkpoints_list` preserves the selection invariant. -/
lemma open_checkpoints_list_selection_inv (a : App) (o : CheckpointsOracle)
    (h : selection_inv a) : selection_inv (a.open_checkpoints_list o) := by
  obtain ⟨hin, hcp⟩ := h
  obtain ⟨osdk, oconn, olc⟩ := o
  unfold App.open_checkpoints_list
  rcases hd : a.instance_detail with _ | info
  · exact ⟨hin, hcp⟩
  rcases osdk with e | _
  · exact ⟨hin, hcp⟩
  rcases oconn with e | _
  · exact ⟨hin, hcp⟩
  dsimp only
  rcases olc info.instance_id 100 with e | r
  · exact ⟨hin, hcp⟩
  · refine ⟨hin, fun hne => ?_⟩
    dsimp only at hne ⊢
    simp_all [← List.length_eq_zero]
    omega

/-- `open_checkpoint_detail` preserves the selection invariant. -/
lemma open_checkpoint_detail_selection_inv (a : App) (o : CheckpointDetailOracle)
    (h : selection_inv a) : selection_inv (a.open_checkpoint_detail o) := by
  obtain ⟨hin, hcp⟩ := h
  obtain ⟨osdk, oconn, ogc⟩ := o
  unfold App.open_checkpoint_detail
  split
  · exact ⟨hin, hcp⟩
  · rcases osdk with e | _
    · exact ⟨hin, hcp⟩
    rcases oconn with e | _
    · exact ⟨hin, hcp⟩
    dsimp only
    rcases ogc (a.checkpoints.getD a.checkpoints_selected default).instance_id
        (a.checkpoints.getD a.checkpoints_selected default).checkpoint_id with e | oc
    · exact ⟨hin, hcp⟩
    · rcases oc with _ | cp <;> exact ⟨hin, hcp⟩

set_option maxHeartbeats 4000000 in
/-- A full refresh cycle preserves the selection invariant: the checkpoint
collection is untouched, and the instance clamp re-establishes validity
whatever the fetched collection is. -/
lemma refresh_selection_inv (a : App) (o : RefreshOracle) (h : selection_inv a) :
    selection_inv (a.refresh o) := by
  obtain ⟨hin, hcp⟩ := h
  obtain ⟨osdk, oconn, ohealth, oli, olim, ogm, onow⟩ := o
  unfold App.refresh refresh_health refresh_instances refresh_images refresh_metrics
  rcases osdk with e | _
  · exact ⟨hin, hcp⟩
  rcases oconn with e | _
  · exact ⟨hin, hcp⟩
  rcases ohealth with he | hh
  all_goals dsimp only
  all_goals rcases hE : oli a.tenant_id a.status_filter.to_instance_status 100 with eI | ri
  all_goals dsimp only
  all_goals try split_ifs
  all_goals try dsimp only
  all_goals rcases hG : olim a.tenant_id 100 with eG | rg
  all_goals dsimp only
  all_goals try split_ifs
  all_goals try dsimp only
  all_goals try split
  all_goals try dsimp only
  all_goals try split
  all_goals try dsimp only
  all_goals try split_ifs
  all_goals refine ⟨fun hne => ?_, fun hne => ?_⟩
  all_goals dsimp only at hne ⊢
  all_goals first
    | exact hcp hne
    | exact hin hne
    | (simp_all [List.isEmpty_iff, ← List.length_eq_zero] <;> omega)

/-- C9: the three drill-down operations are guarded no-ops when their
collection is missing (state unchanged, no error, no connection use); the
selection invariant holds at construction, is preserved by every mutating
operation, and under it the index used by a drill-down on its non-empty
collection is in bounds. -/
theorem c9_guarded_noops
    (a1 : App) (o1 : DetailOracle) (h1 : a1.instances = [])
    (a2 : App) (o2 : CheckpointsOracle) (h2 : a2.instance_detail = none)
    (a3 : App) (o3 : CheckpointDetailOracle) (h3 : a3.checkpoints = [])
    (a4 : App) (h4 : selection_inv a4)
    (oR : RefreshOracle) (p : Option SocketAddr) (sk : Bool)
    (tn : Option String) (iv : Nat) :
    a1.open_instance_detail o1 = a1 ∧
    a2.open_checkpoints_list o2 = a2 ∧
    a3.open_checkpoint_detail o3 = a3 ∧
    (a4.instances ≠ [] → a4.instances_selected < a4.instances.length) ∧
    (a4.checkpoints ≠ [] → a4.checkpoints_selected < a4.checkpoints.length) ∧
    selection_inv (App.new p sk tn iv) ∧
    selection_inv (a4.refresh oR) ∧
    selection_inv a4.next_item ∧
    selection_inv a4.previous_item ∧
    selection_inv a4.next_checkpoint ∧
    selection_inv a4.previous_checkpoint ∧
    selection_inv a4.go_back ∧
    selection_inv (a4.open_instance_detail o1) ∧
    selection_inv (a4.open_checkpoints_list o2) ∧
    selection_inv (a4.open_checkpoint_detail o3) :=
  ⟨open_instance_detail_empty a1 o1 h1,
   open_checkpoints_list_none a2 o2 h2,
   open_checkpoint_detail_empty a3 o3 h3,
   h4.1, h4.2,
   ⟨fun hh => absurd rfl hh, fun hh => absurd rfl hh⟩,
   refresh_selection_inv a4 oR h4,
   next_item_selection_inv a4 h4,
   previous_item_selection_inv a4 h4,
   next_checkpoint_selection_inv a4 h4,
   previous_checkpoint_selection_inv a4 h4,
   go_back_selection_inv a4 h4,
   open_instance_detail_selection_inv a4 o1 h4,
   open_checkpoints_list_selection_inv a4 o2 h4,
   open_checkpoint_detail_selection_inv a4 o3 h4⟩

/-- C9 witness: the fresh state triggers all three guards; the two-instance
state keeps the invariant under every operation. -/
theorem c9_guarded_noops_witness :
    baseApp.open_instance_detail failFx.detail = baseApp ∧
    baseApp.open_checkpoints_list failFx.checkpoints = baseApp ∧
    baseApp.open_checkpoint_detail failFx.checkpoint_detail = baseApp ∧
    (c6App.instances ≠ [] → c6App.instances_selected < c6App.instances.length) ∧
    (c6App.checkpoints ≠ [] → c6App.checkpoints_selected < c6App.checkpoints.length) ∧
    selection_inv (App.new none false none 5) ∧
    selection_inv (c6App.refresh c6Oracle) ∧
    selection_inv c6App.next_item ∧
    selection_inv c6App.previous_item ∧
    selection_inv c6App.next_checkpoint ∧
    selection_inv c6App.previous_checkpoint ∧
    selection_inv c6App.go_back ∧
    selection_inv (c6App.open_instance_detail failFx.detail) ∧
    selection_inv (c6App.open_checkpoints_list failFx.checkpoints) ∧
    selection_inv (c6App.open_checkpoint_detail failFx.checkpoint_detail) :=
  c9_guarded_noops baseApp failFx.detail rfl baseApp failFx.checkpoints rfl
    baseApp failFx.checkpoint_detail rfl c6App ⟨by decide, by decide⟩ c6Oracle
    none false none 5
